import Mathlib

/-!
Shallow embedding of the wreath looper core (src/head.h, src/stereo_looper.h).
C++ `float` is modelled as `ℚ` and `int32_t` as `ℤ` (all quantities involved
stay far below 2^31, so wrap-around is never exercised).
-/

namespace wreath

/-- Constant `kMinLoopLengthSamples` from head.h. -/
def kMinLoopLengthSamples : ℤ := 48

/-- Constant `kSamplesToFade` from head.h. -/
def kSamplesToFade : ℤ := 1200

/-- Enum `Type` from head.h (READ, WRITE). -/
inductive Ty
  | read
  | write
deriving DecidableEq

/-- Enum `Fade` from head.h (NO_FADE, SMOOTH, IN, OUT). -/
inductive Fade
  | noFade
  | smooth
  | fadeIn
  | fadeOut
deriving DecidableEq

/-- Enum `Action` from head.h (NO_ACTION, LOOP, INVERT, STOP). -/
inductive Action
  | noAction
  | loop
  | invert
  | stop
deriving DecidableEq

/-- Enum `Movement` from head.h (NORMAL, PENDULUM, DRUNK). -/
inductive Movement
  | normal
  | pendulum
  | drunk
deriving DecidableEq

/-- Enum `Direction` from head.h (BACKWARDS = -1, FORWARD = 1). -/
inductive Direction
  | backwards
  | forward
deriving DecidableEq

/-- Numeric value of a `Direction`, as in the C++ enum. -/
def Direction.toInt : Direction → ℤ
  | .backwards => -1
  | .forward => 1

/-- Direction flip, as in `direction_ * -1`. -/
def Direction.toggle : Direction → Direction
  | .backwards => .forward
  | .forward => .backwards

/-- State of a `Head` object (head.h).  The sample buffer is modelled as a
total map from integer indices to sample values so that out-of-range
accesses of the C++ array can be talked about explicitly. -/
structure HeadState where
  ty : Ty
  buffer : ℤ → ℚ
  maxBufferSamples : ℤ
  bufferSamples : ℤ
  intIndex : ℤ
  index : ℚ
  rate : ℚ
  fadeIndex : ℚ
  loopStart : ℤ
  loopEnd : ℤ
  loopLength : ℤ
  run : Bool
  looping : Bool
  movement : Movement
  direction : Direction
  mustFade : Fade
  snapshotValue : ℚ
  currentValue : ℚ
  isStopping : Bool

/-- Method `Head::SetIndex`: stores the fractional index and its floor. -/
def SetIndex (s : HeadState) (x : ℚ) : HeadState :=
  { s with index := x, intIndex := Int.floor x }

/-- Method `Head::SamplesToFade`: `min(kSamplesToFade, loopLength_)`. -/
def SamplesToFade (s : HeadState) : ℤ :=
  min kSamplesToFade s.loopLength

/-- Method `Head::CalculateLoopEnd` from head.h. -/
def CalculateLoopEnd (s : HeadState) : HeadState :=
  if s.loopStart + s.loopLength > s.bufferSamples then
    { s with loopEnd := s.loopStart + s.loopLength - s.bufferSamples - 1 }
  else
    { s with loopEnd := s.loopStart + s.loopLength - 1 }

/-- Method `Head::ResetPosition`: index goes to the loop start when moving
forward, to the loop end when moving backwards. -/
def ResetPosition (s : HeadState) : HeadState :=
  SetIndex s (if s.direction = .forward then (s.loopStart : ℚ) else (s.loopEnd : ℚ))

/-- Method `Head::SetLoopStart`: clamps, recomputes the loop end, resets the
position when not looping, and returns the applied value. -/
def SetLoopStart (s : HeadState) (start : ℤ) : HeadState × ℤ :=
  let s1 := { s with loopStart := min (max start 0) (s.bufferSamples - 1) }
  let s2 := CalculateLoopEnd s1
  let s3 := if s2.looping then s2 else ResetPosition s2
  (s3, s3.loopStart)

/-- Method `Head::SetLoopLength`: clamps, recomputes the loop end and returns
the applied value. -/
def SetLoopLength (s : HeadState) (length : ℤ) : HeadState × ℤ :=
  let s1 := { s with loopLength := min (max length kMinLoopLengthSamples) s.bufferSamples }
  let s2 := CalculateLoopEnd s1
  (s2, s2.loopLength)

/-- Method `Head::ToggleDirection` (return value dropped). -/
def ToggleDirection (s : HeadState) : HeadState :=
  { s with direction := s.direction.toggle }

/-- Method `Head::WrapIndex` from head.h, transcribed branch by branch. -/
def WrapIndex (s : HeadState) (index : ℤ) : ℤ :=
  if s.loopEnd > s.loopStart then
    if index > s.loopEnd then
      if s.movement = .pendulum then s.loopEnd - (index - s.loopEnd)
      else if s.direction = .forward then (s.loopStart + (index - s.loopEnd)) - 1 else 0
    else if index < s.loopStart then
      if s.movement = .pendulum then s.loopStart + (s.loopStart - index)
      else if s.direction = .backwards then (s.loopEnd - |s.loopStart - index|) + 1 else 0
    else index
  else
    let frame := s.bufferSamples - 1
    if index > frame then (index - frame) - 1
    else if index < 0 then (frame - |index|) + 1
    else if index > s.loopEnd ∧ index < s.loopStart then
      if s.direction = .forward then
        if s.movement = .pendulum then max (s.loopEnd - (index - s.loopEnd)) 0
        else min (s.loopStart + (index - s.loopEnd) - 1) frame
      else
        if s.movement = .pendulum then min (s.loopStart + (s.loopStart - index)) frame
        else max (s.loopEnd - (s.loopStart - index) + 1) 0
    else index

/-- Machine epsilon of a single-precision float, used by `Head::ReadAt`. -/
def epsFloat : ℚ := 1 / 2 ^ 23

/-- Method `Head::ReadAt`: buffer fetch with linear interpolation towards the
travel direction when the index has a fractional part. -/
def ReadAt (s : HeadState) (index : ℚ) : ℚ :=
  let intPos : ℤ := Int.floor index
  let value := s.buffer intPos
  let frac : ℚ := index - (intPos : ℚ)
  if frac > epsFloat then
    let value2 := s.buffer (WrapIndex s (intPos + s.direction.toInt))
    value + (value2 - value) * frac
  else value

/-- Method `Head::SetUpFade`: snapshots the current sample and arms a fade. -/
def SetUpFade (s : HeadState) (fade : Fade) : HeadState :=
  { s with snapshotValue := ReadAt s s.index, mustFade := fade, fadeIndex := 0 }

/-- Method `Head::Run(bool fade)`. -/
def Run (s : HeadState) (fade : Bool) : HeadState :=
  if fade then SetUpFade s .fadeIn else { s with run := true }

/-- Method `Head::Stop(bool fade)`. -/
def Stop (s : HeadState) (fade : Bool) : HeadState :=
  if fade ∧ ¬s.isStopping then
    SetUpFade { s with isStopping := true } .fadeOut
  else
    ResetPosition { s with isStopping := false, run := false }

/-- Method `Head::HandleLoopAction`: mutates the index at boundary events and
reports the resulting action, transcribed branch by branch from head.h. -/
def HandleLoopAction (s : HeadState) : HeadState × Action :=
  if s.loopEnd > s.loopStart then
    if s.direction = .forward then
      if s.looping ∧ s.intIndex > s.loopEnd then
        if s.movement = .pendulum ∧ s.looping then
          (SetIndex s ((s.loopEnd : ℚ) - (s.index - (s.loopEnd : ℚ))), .invert)
        else
          (SetIndex s (((s.loopStart : ℚ) + (s.index - (s.loopEnd : ℚ))) - 1), .loop)
      else if ¬s.isStopping ∧ ¬s.looping ∧ s.intIndex > s.loopEnd - SamplesToFade s then
        (s, .stop)
      else (s, .noAction)
    else
      if s.looping ∧ s.intIndex < s.loopStart then
        if s.movement = .pendulum ∧ s.looping then
          (SetIndex s ((s.loopStart : ℚ) + ((s.loopStart : ℚ) - s.index)), .invert)
        else
          (SetIndex s (((s.loopEnd : ℚ) - |(s.loopStart : ℚ) - s.index|) + 1), .loop)
      else if ¬s.isStopping ∧ ¬s.looping ∧ s.intIndex < s.loopStart + SamplesToFade s then
        (s, .stop)
      else (s, .noAction)
  else
    let frame : ℚ := (s.bufferSamples : ℚ) - 1
    if s.direction = .forward then
      if (s.intIndex : ℚ) > frame then
        (SetIndex s ((s.index - frame) - 1), if s.looping then .loop else .stop)
      else if s.intIndex > s.loopEnd ∧ s.intIndex < s.loopStart then
        if s.movement = .pendulum ∧ s.looping then
          (SetIndex s (max ((s.loopEnd : ℚ) - (s.index - (s.loopEnd : ℚ))) 0), .invert)
        else
          (SetIndex s (min ((s.loopStart : ℚ) + (s.index - (s.loopEnd : ℚ)) - 1) frame),
           if s.looping then .loop else .stop)
      else (s, .noAction)
    else
      if s.intIndex < 0 then
        (SetIndex s ((frame - |s.index|) + 1), if s.looping then .loop else .stop)
      else if s.intIndex > s.loopEnd ∧ s.intIndex < s.loopStart then
        if s.movement = .pendulum ∧ s.looping then
          (SetIndex s (min ((s.loopStart : ℚ) + ((s.loopStart : ℚ) - s.index)) frame), .invert)
        else
          (SetIndex s (max ((s.loopEnd : ℚ) - ((s.loopStart : ℚ) - s.index) + 1) 0),
           if s.looping then .loop else .stop)
      else (s, .noAction)

/-- Method `Head::UpdatePosition`: advance by `rate * direction`, resolve the
boundary action, and apply the action only for a READ head. -/
def UpdatePosition (s : HeadState) : HeadState :=
  if ¬s.run then s
  else
    let s1 := SetIndex s (s.index + s.rate * (s.direction.toInt : ℚ))
    let p := HandleLoopAction s1
    if p.1.ty = .read then
      match p.2 with
      | .stop => Stop p.1 true
      | .invert => ToggleDirection p.1
      | _ => p.1
    else p.1

/-- Method `Head::Read`: returns the updated state and the produced sample. -/
def Read (s : HeadState) : HeadState × ℚ :=
  let s0 := { s with currentValue := ReadAt s s.index }
  let samplesToFade := SamplesToFade s0
  let s1 :=
    if s0.mustFade = .fadeIn then
      let sr := Run s0 false
      let pos := sr.fadeIndex * (1 / (samplesToFade : ℚ))
      if sr.fadeIndex < (samplesToFade : ℚ) - 1 then
        { sr with currentValue := sr.currentValue * pos, fadeIndex := sr.fadeIndex + sr.rate }
      else { sr with mustFade := .noFade }
    else if s0.mustFade = .fadeOut then
      let pos := s0.fadeIndex * (1 / (samplesToFade : ℚ))
      if s0.fadeIndex < (samplesToFade : ℚ) - 1 then
        { s0 with currentValue := s0.currentValue * (1 - pos), fadeIndex := s0.fadeIndex + s0.rate }
      else Stop { s0 with mustFade := .noFade } false
    else s0
  let s2 :=
    if s1.mustFade = .smooth then
      let pos := s1.fadeIndex * (1 / (samplesToFade : ℚ))
      if s1.fadeIndex < (samplesToFade : ℚ) - 1 then
        let delta := s1.snapshotValue - s1.currentValue
        { s1 with currentValue := s1.currentValue + delta * (1 - pos),
                  fadeIndex := s1.fadeIndex + s1.rate }
      else { s1 with mustFade := .noFade }
    else s1
  (s2, if s2.run then s2.currentValue else 0)

/-- Method `Head::Write`: fade-blends the value and stores it at the wrapped
integer index when the head is running. -/
def Write (s : HeadState) (value : ℚ) : HeadState :=
  let s0 := { s with currentValue := ReadAt s s.index }
  let samplesToFade := SamplesToFade s0
  let vs :=
    if s0.mustFade = .fadeIn then
      let sr := Run s0 false
      let pos := sr.fadeIndex * (1 / (samplesToFade : ℚ))
      if sr.fadeIndex < (samplesToFade : ℚ) - 1 then
        ({ sr with fadeIndex := sr.fadeIndex + sr.rate },
         sr.currentValue * (1 - pos) + value * pos)
      else ({ sr with mustFade := .noFade }, value)
    else if s0.mustFade = .fadeOut then
      let pos := s0.fadeIndex * (1 / (samplesToFade : ℚ))
      if s0.fadeIndex < (samplesToFade : ℚ) - 1 then
        ({ s0 with fadeIndex := s0.fadeIndex + s0.rate },
         value * (1 - pos) + s0.currentValue * pos)
      else (Stop { s0 with mustFade := .noFade } false, value)
    else (s0, value)
  if vs.1.run then
    { vs.1 with buffer := fun j => if j = WrapIndex vs.1 vs.1.intIndex then vs.2 else vs.1.buffer j }
  else vs.1

/-- Method `Head::Buffer`: writes at the current integer index, then checks
the capacity using the pre-increment `bufferSamples_` and either reports the
end of the buffer or advances. -/
def Buffer (s : HeadState) (value : ℚ) : HeadState × Bool :=
  let s0 := { s with buffer := fun j => if j = s.intIndex then value else s.buffer j }
  if s0.bufferSamples > s0.maxBufferSamples - 1 then (s0, true)
  else ({ s0 with intIndex := s0.intIndex + 1, bufferSamples := s0.intIndex + 1 }, false)

/-- Method `Head::ClearBuffer`: `memset(buffer_, 0, maxBufferSamples_)` zeroes
`maxBufferSamples_` BYTES.  With 4-byte floats, sample `i` is fully zeroed
exactly when its last byte is inside the cleared range, i.e. when
`(i + 1) * 4 ≤ maxBufferSamples`; when `4 ∣ maxBufferSamples` no sample is
partially written, so every other sample is unchanged. -/
def ClearBuffer (s : HeadState) : HeadState :=
  { s with buffer := fun i => if 0 ≤ i ∧ (i + 1) * 4 ≤ s.maxBufferSamples then 0 else s.buffer i }

/-- Method `Head::Reset` from head.h. -/
def Reset (s : HeadState) : HeadState :=
  { s with intIndex := 0, index := 0, rate := 1, loopStart := 0, loopEnd := 0,
           loopLength := 0, run := true, looping := true,
           movement := .normal, direction := .forward }

/-- Constructor plus method `Head::Init`: fields not touched by `Init` or
`Reset` keep their C++ in-class zero defaults. -/
def Init (ty : Ty) (buf : ℤ → ℚ) (maxBufferSamples : ℤ) : HeadState :=
  Reset { ty := ty, buffer := buf, maxBufferSamples := maxBufferSamples,
          bufferSamples := 0, intIndex := 0, index := 0, rate := 0, fadeIndex := 0,
          loopStart := 0, loopEnd := 0, loopLength := 0, run := false, looping := false,
          movement := .normal, direction := .forward, mustFade := .noFade,
          snapshotValue := 0, currentValue := 0, isStopping := false }

/-- Iterated `Head::Buffer` calls, recording for each call the buffer index
it writes to and the boolean it returns. -/
def bufferTrace : HeadState → ℕ → List (ℤ × Bool)
  | _, 0 => []
  | s, n + 1 =>
    let p := Buffer s 0
    (s.intIndex, p.2) :: bufferTrace p.1 n


/-- Scenario state for the loop-boundary claims: `loopStart = 1000`,
`loopLength = 500` in a 48000-sample buffer (`loopEnd = 1499`, normal
regime), a running forward READ head at integer index 1499 with
`rate = 1`, `looping = true`, `movement = PENDULUM`. -/
def pendulumScenario : HeadState :=
  { Init .read (fun _ => 0) 48000 with
    bufferSamples := 48000, loopStart := 1000, loopLength := 500, loopEnd := 1499,
    intIndex := 1499, index := 1499, rate := 1, looping := true,
    movement := .pendulum, direction := .forward, run := true }

/-- Same geometry as `pendulumScenario` but for a WRITE head. -/
def writeScenario : HeadState :=
  { pendulumScenario with ty := Ty.write }

/-- Concrete READ head with an Out fade in progress whose fade index has
reached the end of the fade window (`SamplesToFade = min 1200 48 = 48`). -/
def fadingOutHead : HeadState :=
  { Init .read (fun _ => 0) 48000 with
    bufferSamples := 48000, loopStart := 0, loopEnd := 47, loopLength := 48,
    mustFade := Fade.fadeOut, fadeIndex := 100, run := true }

/-- Concrete head with 8 captured samples. -/
def bufferedHead : HeadState :=
  { Init .read (fun _ => 0) 8 with bufferSamples := 8 }

/-- Concrete head whose loop spans a whole 48-sample capture. -/
def smallFullLoopHead : HeadState :=
  { Init .read (fun _ => 0) 48 with bufferSamples := 48, loopStart := 0, loopLength := 48 }

/-- Concrete head in the normal regime with loop region [2, 5]. -/
def normalRegionHead : HeadState :=
  { Init .read (fun _ => 0) 8 with bufferSamples := 8, loopStart := 2, loopEnd := 5, loopLength := 4 }

/-- Concrete WRITE head over a buffer holding 1 everywhere. -/
def storedHead : HeadState :=
  { Init .write (fun _ => 1) 8 with bufferSamples := 8 }

/-- One-shot request fields of `StereoLooper` (stereo_looper.h): the flags
set by the control surface and drained by `Process`.  The channel selector
`mustSetChannelWriteRate` uses the anonymous enum LEFT = 0, RIGHT = 1,
BOTH = 2, NONE = 3. -/
structure OneShots where
  mustClearBuffer : Bool
  mustResetLooper : Bool
  mustRestart : Bool
  mustStart : Bool
  mustStop : Bool
  mustSetChannelWriteRate : ℤ
  nextWriteRate : ℚ

/-- Channel selector value LEFT of the `StereoLooper` anonymous enum. -/
def chLEFT : ℤ := 0

/-- Channel selector value NONE of the `StereoLooper` anonymous enum. -/
def chNONE : ℤ := 3

/-- Effect of one `StereoLooper::Process` call in the RECORDING or FROZEN
state on the one-shot request fields, transcribed from the body of
`Process` (stereo_looper.h).  The bodies of `Looper::Start` and
`Looper::Stop` are not part of the inspected sources, so the booleans they
return for each channel are oracle parameters.  `Process` contains no
occurrence of `mustSetChannelWriteRate` or `nextWriteRate`, so those
fields pass through unchanged. -/
def processOneShots (f : OneShots)
    (startDoneLeft startDoneRight stopDoneLeft stopDoneRight : Bool) : OneShots :=
  let f1 := if f.mustClearBuffer then { f with mustClearBuffer := false } else f
  let f2 := if f1.mustResetLooper then { f1 with mustResetLooper := false } else f1
  let f3 := if f2.mustRestart then { f2 with mustRestart := false } else f2
  let f4 := if f3.mustStart then
      (if startDoneLeft && startDoneRight then { f3 with mustStart := false } else f3) else f3
  let f5 := if f4.mustStop then
      (if stopDoneLeft && stopDoneRight then { f4 with mustStop := false } else f4) else f4
  f5

/-- Helper: `CalculateLoopEnd` only changes the `loopEnd` field, so it
preserves `loopStart`. -/
theorem CalculateLoopEnd_loopStart (s : HeadState) :
    (CalculateLoopEnd s).loopStart = s.loopStart := by
  unfold CalculateLoopEnd; split <;> rfl

/-- Helper: `ResetPosition` only changes the index fields. -/
theorem ResetPosition_loopStart (s : HeadState) :
    (ResetPosition s).loopStart = s.loopStart := rfl

/-- Helper: the loop start stored by `SetLoopStart` is the clamped input. -/
theorem SetLoopStart_loopStart (s : HeadState) (v : ℤ) :
    (SetLoopStart s v).1.loopStart = min (max v 0) (s.bufferSamples - 1) := by
  unfold SetLoopStart
  dsimp only
  split <;> simp [CalculateLoopEnd_loopStart, ResetPosition_loopStart]

/-- Helper: `SetLoopStart` returns the loop start it stored. -/
theorem SetLoopStart_ret (s : HeadState) (v : ℤ) :
    (SetLoopStart s v).2 = (SetLoopStart s v).1.loopStart := rfl

/-- Helper: `HandleLoopAction` only repositions the head: the type,
direction, run flag, fade state and stopping flag are all preserved. -/
theorem HandleLoopAction_frame (s : HeadState) :
    (HandleLoopAction s).1.ty = s.ty ∧ (HandleLoopAction s).1.direction = s.direction ∧
    (HandleLoopAction s).1.run = s.run ∧ (HandleLoopAction s).1.mustFade = s.mustFade ∧
    (HandleLoopAction s).1.isStopping = s.isStopping := by
  unfold HandleLoopAction
  dsimp only
  split_ifs <;> simp [SetIndex]

/-- C1: the claim states that no buffer index read or written by `Buffer`,
`ReadAt` or `Write` can leave `[0, maxBufferSamples)`.  The code violates
it: `Head::Buffer` writes before checking capacity and checks the
pre-increment count, so with capacity 4 the first four calls all return
`false` and the fifth call writes at index 4, which is not below
`maxBufferSamples`. -/
theorem C1_buffer_writes_out_of_bounds :
    bufferTrace (Init .write (fun _ => 0) 4) 5
      = [(0, false), (1, false), (2, false), (3, false), (4, true)] ∧
    ¬ (4 < (Init .write (fun _ => 0) 4).maxBufferSamples) := by decide

/-- C2: the claim states that `Buffer` called exactly `capacity` times
returns `false` on the first `capacity - 1` calls and `true` on the
capacity-th.  The code disagrees: with capacity 4, all four calls return
`false` (the `true` arrives only on call 5, after an out-of-bounds
write). -/
theorem C2_capacity_th_call_returns_false :
    (bufferTrace (Init .write (fun _ => 0) 4) 4).map Prod.snd
      = [false, false, false, false] := by decide

/-- C3 counterexample: with `bufferedLength = 0` (fresh `Init`),
`SetLoopStart 5` clamps against `bufferSamples - 1 = -1` and stores and
returns `-1`, so the claimed invariant `0 ≤ loopStart` fails without a
precondition on `bufferedLength`. -/
theorem C3_counterexample :
    (SetLoopStart (Init .read (fun _ => 0) 48000) 5).2 = -1 ∧
    ¬ (0 ≤ (SetLoopStart (Init .read (fun _ => 0) 48000) 5).1.loopStart) := by decide

/-- C3 (amended): when at least one sample has been captured
(`bufferedLength ≥ 1`), `SetLoopStart` leaves `loopStart` in
`[0, bufferedLength - 1]` and returns the value it applied. -/
theorem C3_set_loop_start_clamps (s : HeadState) (v : ℤ) (h : 1 ≤ s.bufferSamples) :
    0 ≤ (SetLoopStart s v).1.loopStart ∧
    (SetLoopStart s v).1.loopStart ≤ s.bufferSamples - 1 ∧
    (SetLoopStart s v).2 = (SetLoopStart s v).1.loopStart := by
  refine ⟨?_, ?_, SetLoopStart_ret s v⟩ <;> rw [SetLoopStart_loopStart] <;> omega

/-- C3 witness: the amended statement at a concrete head with 8 captured
samples and the out-of-range input 99. -/
theorem C3_witness :
    0 ≤ (SetLoopStart bufferedHead 99).1.loopStart ∧
    (SetLoopStart bufferedHead 99).1.loopStart ≤ bufferedHead.bufferSamples - 1 ∧
    (SetLoopStart bufferedHead 99).2 = (SetLoopStart bufferedHead 99).1.loopStart :=
  C3_set_loop_start_clamps bufferedHead 99 (by decide)

/-- C4 counterexample: in the pendulum scenario the claim predicts a
reflection back to integer index 1499, but one advance of the cursor
lands on integer index 1498 (the reflection formula gives
`1499 - (1500 - 1499) = 1498`). -/
theorem C4_counterexample :
    (UpdatePosition pendulumScenario).intIndex ≠ 1499 := by
  norm_num [UpdatePosition, pendulumScenario, Init, Reset, SetIndex, HandleLoopAction,
    SamplesToFade, kSamplesToFade, ToggleDirection, Direction.toInt, Direction.toggle]

/-- C4 (amended): in the pendulum scenario (loop [1000, 1499], forward
cursor at 1499, rate 1, looping), one advance reflects the cursor to
integer index 1498 and flips the direction to backward. -/
theorem C4_pendulum_reflects :
    (UpdatePosition pendulumScenario).intIndex = 1498 ∧
    (UpdatePosition pendulumScenario).direction = Direction.backwards := by
  norm_num [UpdatePosition, pendulumScenario, Init, Reset, SetIndex, HandleLoopAction,
    SamplesToFade, kSamplesToFade, ToggleDirection, Direction.toInt, Direction.toggle]

/-- C5 counterexample: a pending set-write-rate request (channel LEFT)
survives a full RECORDING/FROZEN `Process` call untouched, because
`Process` never reads or clears `mustSetChannelWriteRate`; the claim that
every pending one-shot flag is applied and cleared by the end of the call
is therefore false. -/
theorem C5_counterexample :
    (processOneShots
      { mustClearBuffer := true, mustResetLooper := true, mustRestart := true,
        mustStart := true, mustStop := true,
        mustSetChannelWriteRate := chLEFT, nextWriteRate := 2 }
      true true true true).mustSetChannelWriteRate = chLEFT ∧ chLEFT ≠ chNONE := by decide

/-- C5 (amended): a RECORDING/FROZEN `Process` call always clears the
clear-buffer, reset-looper and restart flags; it clears the start and
stop flags exactly when both channel loopers report the operation done;
and it never consumes or clears the set-write-rate request or its staged
rate value. -/
theorem C5_one_shot_drain (f : OneShots) (a b c d : Bool) :
    (processOneShots f a b c d).mustClearBuffer = false ∧
    (processOneShots f a b c d).mustResetLooper = false ∧
    (processOneShots f a b c d).mustRestart = false ∧
    (processOneShots f a b c d).mustStart = (f.mustStart && !(a && b)) ∧
    (processOneShots f a b c d).mustStop = (f.mustStop && !(c && d)) ∧
    (processOneShots f a b c d).mustSetChannelWriteRate = f.mustSetChannelWriteRate ∧
    (processOneShots f a b c d).nextWriteRate = f.nextWriteRate := by
  obtain ⟨cb, rl, rs, st, sp, wr, nw⟩ := f
  cases cb <;> cases rl <;> cases rs <;> cases st <;> cases sp <;>
    cases a <;> cases b <;> cases c <;> cases d <;> simp [processOneShots]

/-- C6: when a READ head with an Out fade in progress reaches the end of
the fade window (`fadeIndex ≥ samplesToFade - 1`), that `Read` call
returns exactly 0, disables the head (`run = false`) and resets its
position to the loop start (forward) or loop end (backwards). -/
theorem C6_out_fade_completion (s : HeadState)
    (hfade : s.mustFade = Fade.fadeOut)
    (hend : ¬ (s.fadeIndex < ((SamplesToFade s : ℤ) : ℚ) - 1)) :
    (Read s).2 = 0 ∧ (Read s).1.run = false ∧
    (Read s).1.index
      = (if s.direction = Direction.forward then (s.loopStart : ℚ) else (s.loopEnd : ℚ)) := by
  unfold SamplesToFade at hend
  unfold Read SamplesToFade
  dsimp only
  rw [hfade]
  rw [if_neg (by decide : ¬ (Fade.fadeOut = Fade.fadeIn)), if_pos rfl, if_neg hend]
  simp [Stop, ResetPosition, SetIndex]

/-- C6 witness: the Out-fade completion at a concrete fading head. -/
theorem C6_witness :
    (Read fadingOutHead).2 = 0 ∧ (Read fadingOutHead).1.run = false ∧
    (Read fadingOutHead).1.index
      = (if fadingOutHead.direction = Direction.forward
         then (fadingOutHead.loopStart : ℚ) else (fadingOutHead.loopEnd : ℚ)) :=
  C6_out_fade_completion fadingOutHead (by decide)
    (by norm_num [fadingOutHead, Init, Reset, SamplesToFade, kSamplesToFade])

/-- C7: for every valid pair `0 ≤ loopStart ≤ bufferedLength - 1` and
`kMinLoopLengthSamples ≤ loopLength ≤ bufferedLength`, the loop end
computed by `CalculateLoopEnd` lies in `[0, bufferedLength - 1]`. -/
theorem C7_loop_end_in_range (s : HeadState)
    (h0 : 0 ≤ s.loopStart) (h1 : s.loopStart ≤ s.bufferSamples - 1)
    (h2 : kMinLoopLengthSamples ≤ s.loopLength) (h3 : s.loopLength ≤ s.bufferSamples) :
    0 ≤ (CalculateLoopEnd s).loopEnd ∧ (CalculateLoopEnd s).loopEnd ≤ s.bufferSamples - 1 := by
  unfold kMinLoopLengthSamples at h2
  unfold CalculateLoopEnd
  split <;> simp <;> omega

/-- C7 witness: the loop-end bound at a concrete 48-sample head whose loop
spans the whole capture. -/
theorem C7_witness :
    0 ≤ (CalculateLoopEnd smallFullLoopHead).loopEnd ∧
    (CalculateLoopEnd smallFullLoopHead).loopEnd ≤ smallFullLoopHead.bufferSamples - 1 :=
  C7_loop_end_in_range smallFullLoopHead (by decide) (by decide) (by decide) (by decide)

/-- C8: `WrapIndex` returns any index already inside the active loop
region unchanged (region `[loopStart, loopEnd]` in the normal regime;
`[0, loopEnd] ∪ [loopStart, bufferedLength - 1]` in the inverted regime,
whose geometry satisfies `0 ≤ loopStart` and
`loopEnd ≤ bufferedLength - 1`), and is therefore idempotent there. -/
theorem C8_wrap_identity (s : HeadState) (i : ℤ)
    (h : (s.loopEnd > s.loopStart ∧ s.loopStart ≤ i ∧ i ≤ s.loopEnd) ∨
         (s.loopEnd ≤ s.loopStart ∧ 0 ≤ s.loopStart ∧ s.loopEnd ≤ s.bufferSamples - 1 ∧
           ((0 ≤ i ∧ i ≤ s.loopEnd) ∨ (s.loopStart ≤ i ∧ i ≤ s.bufferSamples - 1)))) :
    WrapIndex s i = i ∧ WrapIndex s (WrapIndex s i) = WrapIndex s i := by
  have key : WrapIndex s i = i := by
    unfold WrapIndex
    rcases h with ⟨h1, h2, h3⟩ | ⟨h1, h2, h3, h4⟩
    · rw [if_pos h1, if_neg (by omega), if_neg (by omega)]
    · rw [if_neg (by omega)]
      dsimp only
      rw [if_neg (by omega), if_neg (by omega), if_neg (by omega)]
  exact ⟨key, by rw [key, key]⟩

/-- C8 witness: identity and idempotence of `WrapIndex` at index 3 of a
concrete head with normal-regime loop region [2, 5]. -/
theorem C8_witness :
    WrapIndex normalRegionHead 3 = 3 ∧
    WrapIndex normalRegionHead (WrapIndex normalRegionHead 3) = WrapIndex normalRegionHead 3 :=
  C8_wrap_identity normalRegionHead 3 (by decide)

/-- C9: for a running WRITE head, `UpdatePosition` is exactly the advance
plus the repositioning done inside `HandleLoopAction` — the boundary
action itself is never applied, so the direction, run flag, fade state
and stopping flag are unchanged. -/
theorem C9_write_head_ignores_action (s : HeadState)
    (hty : s.ty = Ty.write) (hrun : s.run = true) :
    UpdatePosition s
      = (HandleLoopAction (SetIndex s (s.index + s.rate * (s.direction.toInt : ℚ)))).1 ∧
    (UpdatePosition s).direction = s.direction ∧
    (UpdatePosition s).run = true ∧
    (UpdatePosition s).mustFade = s.mustFade ∧
    (UpdatePosition s).isStopping = s.isStopping := by
  have hty1 : (HandleLoopAction (SetIndex s (s.index + s.rate * (s.direction.toInt : ℚ)))).1.ty
      = Ty.write := by
    rw [(HandleLoopAction_frame _).1]; exact hty
  have hmain : UpdatePosition s
      = (HandleLoopAction (SetIndex s (s.index + s.rate * (s.direction.toInt : ℚ)))).1 := by
    unfold UpdatePosition
    rw [if_neg (by simp [hrun])]
    dsimp only
    rw [if_neg (by simp [hty1])]
  refine ⟨hmain, ?_, ?_, ?_, ?_⟩ <;> rw [hmain]
  · exact (HandleLoopAction_frame _).2.1
  · rw [(HandleLoopAction_frame _).2.2.1]; exact hrun
  · exact (HandleLoopAction_frame _).2.2.2.1
  · exact (HandleLoopAction_frame _).2.2.2.2

/-- C9 witness: the WRITE-head frame conditions at the concrete pendulum
scenario geometry. -/
theorem C9_witness :
    UpdatePosition writeScenario
      = (HandleLoopAction (SetIndex writeScenario
          (writeScenario.index + writeScenario.rate * (writeScenario.direction.toInt : ℚ)))).1 ∧
    (UpdatePosition writeScenario).direction = writeScenario.direction ∧
    (UpdatePosition writeScenario).run = true ∧
    (UpdatePosition writeScenario).mustFade = writeScenario.mustFade ∧
    (UpdatePosition writeScenario).isStopping = writeScenario.isStopping :=
  C9_write_head_ignores_action writeScenario (by decide) (by decide)

/-- C10: `ClearBuffer` zeroes exactly the samples whose four bytes fall in
the first `maxBufferSamples` bytes — i.e. the first `maxBufferSamples / 4`
samples — and leaves every sample at index `≥ maxBufferSamples / 4`
unchanged (stated for `4 ∣ maxBufferSamples`, which rules out a partially
written sample; the program uses `maxBufferSamples = 48000`). -/
theorem C10_clear_buffer_extent (s : HeadState) (i : ℤ)
    (hdiv : 4 ∣ s.maxBufferSamples) (hi : 0 ≤ i) :
    (i < s.maxBufferSamples / 4 → (ClearBuffer s).buffer i = 0) ∧
    (s.maxBufferSamples / 4 ≤ i → (ClearBuffer s).buffer i = s.buffer i) := by
  unfold ClearBuffer
  constructor
  · intro h
    simp only
    rw [if_pos ⟨hi, by omega⟩]
  · intro h
    simp only
    rw [if_neg (by omega)]

/-- C10 witness: the clearing extent at a concrete head with capacity 8
(so 2 fully-cleared samples) over a buffer holding 1 everywhere. -/
theorem C10_witness :
    (1 < storedHead.maxBufferSamples / 4 → (ClearBuffer storedHead).buffer 1 = 0) ∧
    (storedHead.maxBufferSamples / 4 ≤ 1 → (ClearBuffer storedHead).buffer 1 = storedHead.buffer 1) :=
  C10_clear_buffer_extent storedHead 1 (by decide) (by decide)

end wreath
